import Mathlib

/-!
Verification of the bin-divider specification generator (src/app.py).

The data model and the operations of the program are embedded shallowly:
Python dicts become association lists over a value type `PyVal`, Python
floats become rationals (the spec allows a 1e-9 tolerance, and every
quantity the program computes is an exact decimal, so exact rational
arithmetic is a faithful model), Python ints become `Int`, and the
possibly-raising builtin `float()` becomes an `Option`-returning function.
All definitions are executable, so concrete runs can be settled by `decide`.
-/

namespace BinSpecs

/-- A Python value as it occurs in this program: a number (int or float,
modelled as a rational), a string, or `None`. -/
inductive PyVal where
  | num (q : ℚ)
  | str (s : String)
  | pynone
deriving DecidableEq

/-- Python truthiness for the values of this program: nonzero numbers and
nonempty strings are truthy, `None` is falsy. -/
def pyTruthy : PyVal → Bool
  | .num q => if q = 0 then false else true
  | .str s => if s = "" then false else true
  | .pynone => false

/-- Python str() restricted to the values of this program; only ever applied
to strings by the code under verification. -/
def pyStr : PyVal → String
  | .num q => toString q
  | .str s => s
  | .pynone => "None"

/-- Value of a nonempty digit string. -/
def digitsToNat (cs : List Char) : Nat :=
  cs.foldl (fun a c => a * 10 + (c.toNat - 48)) 0

def allDigits (cs : List Char) : Bool :=
  cs.all (fun c => c.isDigit)

/-- Strip leading and trailing whitespace, as Python float() does on its
string argument. -/
def trimChars (cs : List Char) : List Char :=
  ((cs.dropWhile Char.isWhitespace).reverse.dropWhile Char.isWhitespace).reverse

/-- Models the Python builtin float() on strings, for finite decimal
literals: surrounding whitespace, an optional sign, integer digits, an
optional dot and fractional digits. Returns `Option.none` where float()
raises ValueError. -/
def parseFloat? (s : String) : Option ℚ :=
  let cs := trimChars s.toList
  let signed : ℚ × List Char :=
    match cs with
    | '-' :: rest => (-1, rest)
    | '+' :: rest => (1, rest)
    | _ => (1, cs)
  let intPart := signed.2.takeWhile (fun c => c ≠ '.')
  let rest := signed.2.dropWhile (fun c => c ≠ '.')
  match rest with
  | [] =>
    if !intPart.isEmpty && allDigits intPart then
      some (signed.1 * digitsToNat intPart)
    else Option.none
  | '.' :: frac =>
    if (!intPart.isEmpty || !frac.isEmpty) && allDigits intPart && allDigits frac then
      some (signed.1 * ((digitsToNat intPart : ℚ) + digitsToNat frac / 10 ^ frac.length))
    else Option.none
  | _ => Option.none

/-- Models the Python builtin float() on the values of this program:
numbers convert to themselves, strings parse as decimal literals, `None`
is not convertible. `Option.none` stands for a raised exception. -/
def pyFloat? : PyVal → Option ℚ
  | .num q => some q
  | .str s => parseFloat? s
  | .pynone => Option.none

/-- Embeds safe_float from src/app.py: try float(x), on any exception
return the default. -/
def safe_float (x : PyVal) (default : ℚ) : ℚ :=
  match pyFloat? x with
  | some q => q
  | Option.none => default

/-- Python int() applied to a float: truncation toward zero. -/
def pyInt (q : ℚ) : ℤ :=
  if q < 0 then ⌈q⌉ else ⌊q⌋

/-- A Python dict with string keys, as an association list (keys are unique
in every dict the program builds; lookup takes the first match). -/
abbrev Dict := List (String × PyVal)

/-- Python dict lookup d.get(k) without a default, as an `Option`. -/
def dlookup? {α : Type} (d : List (String × α)) (k : String) : Option α :=
  match d with
  | [] => Option.none
  | (k1, v) :: rest => if k1 = k then some v else dlookup? rest k

/-- Python dict lookup d.get(k, dft) with a default. -/
def dget {α : Type} (d : List (String × α)) (k : String) (dft : α) : α :=
  match dlookup? d k with
  | some v => v
  | Option.none => dft

/-- Python dict assignment d[k] = v: replaces the value in place at an
existing key, otherwise appends the new key at the end. -/
def dset (d : Dict) (k : String) (v : PyVal) : Dict :=
  match d with
  | [] => [(k, v)]
  | (k1, v1) :: rest => if k1 = k then (k, v) :: rest else (k1, v1) :: dset rest k v

/-- Python dict merge followed by updates, left to right. -/
def dmerge (a b : Dict) : Dict :=
  b.foldl (fun d e => dset d e.1 e.2) a

/-- The count-like read pattern of calculate_fields:
int(safe_float(d.get(k, 1), 1)). -/
def readCount (d : Dict) (k : String) : ℤ :=
  pyInt (safe_float (dget d k (PyVal.num 1)) 1)

/-- The dimension-like read pattern of calculate_fields:
safe_float(d.get(k, 0.0), 0.0). -/
def readDim (d : Dict) (k : String) : ℚ :=
  safe_float (dget d k (PyVal.num 0)) 0

/-- Embeds calculate_fields from src/app.py: returns a new dict with the
calculated fields added, without mutating either input (the embedding is a
pure function of both dicts). -/
def calculate_fields (group_data bin_data : Dict) : Dict :=
  let g := group_data
  let b := bin_data
  let shelves_per_bay : ℤ := readCount b "# of Shelves per Bay"
  let qty_per_shelf : ℤ := readCount b "Qty bins per Shelf"
  let ut : ℚ := readDim b "UT"
  let depth_mm : ℚ := readDim b "Depth (mm)"
  let height_mm : ℚ := readDim b "Height (mm)"
  let width_mm : ℚ := readDim b "Width (mm)"
  let lip_cm : ℚ := readDim b "Lip (cm)"
  let start_aisle : ℤ := readCount g "Start Aisle"
  let end_aisle : ℤ := readCount g "End Aisle"
  let bays : ℤ := readCount g "# of Bays"
  let out := b
  let out := dset out "Lip (cm)" (if lip_cm = 0 then .str "-" else .num lip_cm)
  let out := dset out "# of Aisles" (.num ((end_aisle - start_aisle + 1 : ℤ) : ℚ))
  let qty_per_bay : ℤ := shelves_per_bay * qty_per_shelf
  let out := dset out "Qty Per Bay" (.num (qty_per_bay : ℚ))
  let out := dset out "Total Quantity" (.num ((qty_per_bay * bays : ℤ) : ℚ))
  let gross_cbm : ℚ := depth_mm * height_mm * width_mm / 1000000
  let out := dset out "Bin Gross CBM" (.num gross_cbm)
  let out := dset out "Bin Net CBM" (.num (gross_cbm * ut))
  out

/-- A group as stored in session state: its data dict, its ordered list of
referenced bin ids (duplicates permitted), and the finalized flag. -/
structure Group where
  group_data : Dict
  bin_keys : List String
  finalized : Bool
deriving DecidableEq

/-- The bin library: a dict from bin id to the bin data dict. -/
abbrev Library := List (String × Dict)

/-- Embeds sync_bin_keys_with_library from src/app.py: every group keeps
only the bin ids that are keys of the library, in their original order;
nothing else changes and no error is surfaced. -/
def sync_bin_keys_with_library (lib : Library) (groups : List Group) : List Group :=
  let valid_ids := lib.map (fun e => e.1)
  groups.map (fun grp => { grp with bin_keys := grp.bin_keys.filter (fun k => valid_ids.contains k) })

/-- The group-identity column headers (GROUP_COLS in src/app.py). -/
def GROUP_COLS : List String :=
  ["Group Name", "Floor", "Mod", "Depth", "Start Aisle", "End Aisle", "# of Bays",
   "Total # of Shelves per Bay", "Bay Design"]

/-- The fixed export column order (EXPORT_COLUMNS in src/app.py). -/
def EXPORT_COLUMNS : List String :=
  ["Group Name", "Floor", "Mod", "Depth", "Start Aisle", "End Aisle", "# of Aisles", "# of Bays",
   "Total # of Shelves per Bay", "Bay Design", "Bin Box Type", "Depth (mm)",
   "Height (mm)", "Width (mm)", "Lip (cm)", "# of Shelves per Bay",
   "Qty bins per Shelf", "Qty Per Bay", "Total Quantity", "UT",
   "Bin Gross CBM", "Bin Net CBM"]

/-- One flat export record of generate_excel: the group columns merged with
the calculated fields, then restricted to the fixed export column order
(missing entries become None, as in row.get(c, None)). -/
def makeRow (group_data base_bin : Dict) : Dict :=
  let calcd := calculate_fields group_data base_bin
  let row := dmerge (GROUP_COLS.map (fun c => (c, dget group_data c PyVal.pynone))) calcd
  EXPORT_COLUMNS.map (fun c => (c, dget row c PyVal.pynone))

/-- The rows one group contributes in generate_excel: iterate its bin ids
in order, skip (continue) any id absent from the library, emit one record
per surviving id. -/
def groupRows (lib : Library) (grp : Group) : List Dict :=
  grp.bin_keys.filterMap (fun k =>
    match dlookup? lib k with
    | some base_bin => some (makeRow grp.group_data base_bin)
    | Option.none => Option.none)

/-- Embeds the row-building loop of generate_excel: the flat data rows in
group-then-bin order, and group_row_counts, the per-group number of rows
actually emitted. -/
def buildRows (lib : Library) (groups : List Group) : List Dict × List Nat :=
  ((groups.map (groupRows lib)).flatten, groups.map (fun grp => (groupRows lib grp).length))

/-- One vertical merge of the export sheet: a column index (1-based) and an
inclusive row span. The merged top-left cell is also the one that receives
the centered, wrap-text alignment. -/
structure MergeRegion where
  startRow : Nat
  endRow : Nat
  col : Nat
deriving DecidableEq

def mergeRegionsAux : Nat → List Nat → List MergeRegion
  | _, [] => []
  | current_row, c :: rest =>
    if c > 0 then
      ((List.range' 1 9).map (fun col =>
          { startRow := current_row, endRow := current_row + c - 1, col := col }))
        ++ mergeRegionsAux (current_row + c) rest
    else mergeRegionsAux current_row rest

/-- Embeds the merge loop of generate_excel: current_row starts at 2 (row 1
is the header), every group block with a positive row count gets a vertical
merge in each of the columns range(1, 10), i.e. columns 1 through 9. -/
def mergeRegions (group_row_counts : List Nat) : List MergeRegion :=
  mergeRegionsAux 2 group_row_counts

/-- The header names of the columns the merge loop touches: the first nine
entries of EXPORT_COLUMNS. -/
def mergedColumnNames : List String :=
  (List.range' 1 9).map (fun i => EXPORT_COLUMNS.getD (i - 1) "")

/-- What the download section at the bottom of src/app.py renders: nothing
at all when there are no groups, a warning when there are groups but the
library is empty, and otherwise the download button carrying the built
report (the only case in which generate_excel runs). -/
inductive ExportUI where
  | hidden
  | warnEmptyLibrary
  | download (report : List Dict × List Nat)
deriving DecidableEq

/-- Embeds the download section of src/app.py. -/
def exportSection (groups : List Group) (lib : Library) : ExportUI :=
  if groups.isEmpty then ExportUI.hidden
  else if lib.isEmpty then ExportUI.warnEmptyLibrary
  else ExportUI.download (buildRows lib groups)

/-- Embeds the lip derivation of the bin editor in src/app.py:
data[Lip (cm)] = (safe_float(data[Height (mm)]) * 0.2 / 10) if has_lip
else 0.0. -/
def lipDerivation (has_lip : Bool) (height_val : PyVal) : ℚ :=
  if has_lip then safe_float height_val 0 * 0.2 / 10 else 0

/-- Embeds the Copy Group handler of src/app.py: deep-copy the group (value
copy in this embedding), force editing state, and suffix the name. -/
def cloneGroup (grp : Group) : Group :=
  let name := dget grp.group_data "Group Name" PyVal.pynone
  let newName : PyVal :=
    if pyTruthy name then .str (pyStr name ++ " (Copy)") else .str "Untitled (Copy)"
  { grp with finalized := false, group_data := dset grp.group_data "Group Name" newName }

/-- Embeds the effect of pressing Copy Group on the group at position i:
the clone is appended at the end of the list. -/
def copyGroupHandler (groups : List Group) (i : Nat) : List Group :=
  match groups.get? i with
  | some grp => groups ++ [cloneGroup grp]
  | Option.none => groups

/-- The group_data defaults of the Add New Group handler in src/app.py. -/
def defaultGroupData : Dict :=
  [("Group Name", .str ""), ("Floor", .str ""), ("Mod", .str ""), ("Depth", .str ""),
   ("Start Aisle", .num 1), ("End Aisle", .num 1), ("# of Bays", .num 1),
   ("Total # of Shelves per Bay", .num 1), ("Bay Design", .str "")]

/-- The bin of the end-to-end example in the spec, as the bin editor stores
it: Lip (cm) holds the value the lip derivation writes for has_lip = true
and height 200. -/
def smallToteBin : Dict :=
  [("Bin Box Type", .str "Small Tote"), ("Depth (mm)", .num 300), ("Height (mm)", .num 200),
   ("Width (mm)", .num 400), ("Lip (cm)", .num (lipDerivation true (.num 200))),
   ("# of Shelves per Bay", .num 4), ("Qty bins per Shelf", .num 6), ("UT", .num 0.85)]

/-- The group data of the end-to-end example: the Add New Group defaults
with End Aisle set to 5 and # of Bays set to 3. -/
def exampleGroupData : Dict :=
  dset (dset defaultGroupData "End Aisle" (.num 5)) "# of Bays" (.num 3)

/-- The group of the end-to-end example, referencing the example bin once. -/
def exampleGroup : Group :=
  { group_data := exampleGroupData, bin_keys := ["bin_1"], finalized := false }

/-- The library of the end-to-end example: one bin under id bin_1. -/
def exampleLibrary : Library := [("bin_1", smallToteBin)]

/-- A small concrete group used to instantiate universally quantified
theorems at a concrete input. -/
def cloneWitnessGroup : Group :=
  { group_data := defaultGroupData, bin_keys := ["bin_1", "bin_1"], finalized := true }

/-! General lemmas about the dict operations and the report builder. -/

theorem dlookup_dset_self (d : Dict) (k : String) (v : PyVal) :
    dlookup? (dset d k v) k = some v := by
  induction d with
  | nil => simp [dset, dlookup?]
  | cons e rest ih =>
    obtain ⟨k1, v1⟩ := e
    by_cases h : k1 = k
    · simp [dset, dlookup?, h]
    · simp [dset, dlookup?, h, ih]

theorem dlookup_dset_ne (d : Dict) (k k2 : String) (v : PyVal) (h : k2 ≠ k) :
    dlookup? (dset d k v) k2 = dlookup? d k2 := by
  induction d with
  | nil => simp [dset, dlookup?, Ne.symm h]
  | cons e rest ih =>
    obtain ⟨k1, v1⟩ := e
    by_cases h1 : k1 = k
    · subst h1
      simp [dset, dlookup?, Ne.symm h]
    · by_cases h2 : k1 = k2 <;> simp [dset, dlookup?, h1, h2, h, ih]

theorem calc_lookup_aisles (g b : Dict) :
    dlookup? (calculate_fields g b) "# of Aisles"
      = some (.num ((readCount g "End Aisle" - readCount g "Start Aisle" + 1 : ℤ) : ℚ)) := by
  show dlookup? (dset (dset (dset (dset (dset (dset b
      "Lip (cm)" _) "# of Aisles" _) "Qty Per Bay" _) "Total Quantity" _) "Bin Gross CBM" _)
      "Bin Net CBM" _) "# of Aisles" = _
  rw [dlookup_dset_ne _ _ _ _ (by decide), dlookup_dset_ne _ _ _ _ (by decide),
      dlookup_dset_ne _ _ _ _ (by decide), dlookup_dset_ne _ _ _ _ (by decide),
      dlookup_dset_self]

theorem calc_lookup_qty (g b : Dict) :
    dlookup? (calculate_fields g b) "Qty Per Bay"
      = some (.num ((readCount b "# of Shelves per Bay" * readCount b "Qty bins per Shelf" : ℤ)
          : ℚ)) := by
  show dlookup? (dset (dset (dset (dset (dset (dset b
      "Lip (cm)" _) "# of Aisles" _) "Qty Per Bay" _) "Total Quantity" _) "Bin Gross CBM" _)
      "Bin Net CBM" _) "Qty Per Bay" = _
  rw [dlookup_dset_ne _ _ _ _ (by decide), dlookup_dset_ne _ _ _ _ (by decide),
      dlookup_dset_ne _ _ _ _ (by decide), dlookup_dset_self]

theorem calc_lookup_total (g b : Dict) :
    dlookup? (calculate_fields g b) "Total Quantity"
      = some (.num ((readCount b "# of Shelves per Bay" * readCount b "Qty bins per Shelf"
          * readCount g "# of Bays" : ℤ) : ℚ)) := by
  show dlookup? (dset (dset (dset (dset (dset (dset b
      "Lip (cm)" _) "# of Aisles" _) "Qty Per Bay" _) "Total Quantity" _) "Bin Gross CBM" _)
      "Bin Net CBM" _) "Total Quantity" = _
  rw [dlookup_dset_ne _ _ _ _ (by decide), dlookup_dset_ne _ _ _ _ (by decide),
      dlookup_dset_self]

theorem calc_lookup_gross (g b : Dict) :
    dlookup? (calculate_fields g b) "Bin Gross CBM"
      = some (.num (readDim b "Depth (mm)" * readDim b "Height (mm)" * readDim b "Width (mm)"
          / 1000000)) := by
  show dlookup? (dset (dset (dset (dset (dset (dset b
      "Lip (cm)" _) "# of Aisles" _) "Qty Per Bay" _) "Total Quantity" _) "Bin Gross CBM" _)
      "Bin Net CBM" _) "Bin Gross CBM" = _
  rw [dlookup_dset_ne _ _ _ _ (by decide), dlookup_dset_self]

theorem calc_lookup_net (g b : Dict) :
    dlookup? (calculate_fields g b) "Bin Net CBM"
      = some (.num (readDim b "Depth (mm)" * readDim b "Height (mm)" * readDim b "Width (mm)"
          / 1000000 * readDim b "UT")) := by
  show dlookup? (dset (dset (dset (dset (dset (dset b
      "Lip (cm)" _) "# of Aisles" _) "Qty Per Bay" _) "Total Quantity" _) "Bin Gross CBM" _)
      "Bin Net CBM" _) "Bin Net CBM" = _
  rw [dlookup_dset_self]

theorem calc_lookup_lip (g b : Dict) :
    dlookup? (calculate_fields g b) "Lip (cm)"
      = some (if readDim b "Lip (cm)" = 0 then .str "-" else .num (readDim b "Lip (cm)")) := by
  show dlookup? (dset (dset (dset (dset (dset (dset b
      "Lip (cm)" _) "# of Aisles" _) "Qty Per Bay" _) "Total Quantity" _) "Bin Gross CBM" _)
      "Bin Net CBM" _) "Lip (cm)" = _
  rw [dlookup_dset_ne _ _ _ _ (by decide), dlookup_dset_ne _ _ _ _ (by decide),
      dlookup_dset_ne _ _ _ _ (by decide), dlookup_dset_ne _ _ _ _ (by decide),
      dlookup_dset_ne _ _ _ _ (by decide), dlookup_dset_self]

theorem keys_contains_iff (lib : Library) (k : String) :
    (lib.map (fun e => e.1)).contains k = (dlookup? lib k).isSome := by
  induction lib with
  | nil => simp [dlookup?]
  | cons e rest ih =>
    obtain ⟨k1, d⟩ := e
    by_cases h : k1 = k
    · simp [dlookup?, h]
    · have h2 : (k == k1) = false := beq_eq_false_iff_ne.mpr (Ne.symm h)
      simpa [dlookup?, h, h2] using ih

theorem groupRows_eq (lib : Library) (grp : Group) :
    groupRows lib grp
      = (grp.bin_keys.filter (fun k => (dlookup? lib k).isSome)).map
          (fun k => makeRow grp.group_data (dget lib k [])) := by
  unfold groupRows
  induction grp.bin_keys with
  | nil => simp
  | cons k ks ih =>
    cases h : dlookup? lib k with
    | none => simp [h, List.filterMap_cons, List.filter_cons, ih]
    | some b => simp [h, List.filterMap_cons, List.filter_cons, dget, ih]

theorem buildRows_len (lib : Library) (groups : List Group) :
    (buildRows lib groups).1.length = ((buildRows lib groups).2).sum := by
  unfold buildRows
  simp [List.length_flatten, Function.comp_def]

theorem mergeRegionsAux_col (start : Nat) (counts : List Nat) (r : MergeRegion)
    (h : r ∈ mergeRegionsAux start counts) : 1 ≤ r.col ∧ r.col ≤ 9 := by
  induction counts generalizing start with
  | nil => simp [mergeRegionsAux] at h
  | cons c rest ih =>
    by_cases hc : c > 0
    · simp only [mergeRegionsAux, if_pos hc, List.mem_append, List.mem_map] at h
      rcases h with ⟨col, hcol, rfl⟩ | h
      · rw [List.mem_range'_1] at hcol
        show 1 ≤ col ∧ col ≤ 9
        omega
      · exact ih _ h
    · simp only [mergeRegionsAux, if_neg hc] at h
      exact ih _ h

/-! The claims. -/

/-- C1: for every group dict g and bin dict b, calculate_fields returns
# of Aisles = end_aisle - start_aisle + 1 as a signed integer propagated
unvalidated, Qty Per Bay = shelves_per_bay * bins_per_shelf,
Total Quantity = Qty Per Bay * bay_count, Bin Gross CBM =
depth * height * width / 1000000, and Bin Net CBM = Bin Gross CBM * UT,
where the count-like fields are read via int(safe_float(get(k, 1), 1)) and
the dimension fields via safe_float(get(k, 0.0), 0.0). -/
theorem C1_derive_formulas (g b : Dict) :
    dlookup? (calculate_fields g b) "# of Aisles"
      = some (.num ((readCount g "End Aisle" - readCount g "Start Aisle" + 1 : ℤ) : ℚ)) ∧
    dlookup? (calculate_fields g b) "Qty Per Bay"
      = some (.num ((readCount b "# of Shelves per Bay" * readCount b "Qty bins per Shelf" : ℤ)
          : ℚ)) ∧
    dlookup? (calculate_fields g b) "Total Quantity"
      = some (.num ((readCount b "# of Shelves per Bay" * readCount b "Qty bins per Shelf"
          * readCount g "# of Bays" : ℤ) : ℚ)) ∧
    dlookup? (calculate_fields g b) "Bin Gross CBM"
      = some (.num (readDim b "Depth (mm)" * readDim b "Height (mm)" * readDim b "Width (mm)"
          / 1000000)) ∧
    dlookup? (calculate_fields g b) "Bin Net CBM"
      = some (.num (readDim b "Depth (mm)" * readDim b "Height (mm)" * readDim b "Width (mm)"
          / 1000000 * readDim b "UT")) :=
  ⟨calc_lookup_aisles g b, calc_lookup_qty g b, calc_lookup_total g b,
   calc_lookup_gross g b, calc_lookup_net g b⟩

/-- C2 counterexample: on the end-to-end example input the code computes
Bin Gross CBM = 24 and Bin Net CBM = 20.4 (the formula divides cubic
millimetres by 1e6, which yields litres, not cubic metres), so the claimed
values 0.024 and 0.0204 are wrong on the code. -/
theorem C2_counterexample :
    dlookup? (calculate_fields exampleGroupData smallToteBin) "Bin Gross CBM"
      = some (.num 24) ∧
    dlookup? (calculate_fields exampleGroupData smallToteBin) "Bin Gross CBM"
      ≠ some (.num 0.024) ∧
    dlookup? (calculate_fields exampleGroupData smallToteBin) "Bin Net CBM"
      = some (.num 20.4) ∧
    dlookup? (calculate_fields exampleGroupData smallToteBin) "Bin Net CBM"
      ≠ some (.num 0.0204) := by
  have hg : dlookup? (calculate_fields exampleGroupData smallToteBin) "Bin Gross CBM"
      = some (.num ((300 : ℚ) * 200 * 400 / 1000000)) := rfl
  have hn : dlookup? (calculate_fields exampleGroupData smallToteBin) "Bin Net CBM"
      = some (.num ((300 : ℚ) * 200 * 400 / 1000000 * 0.85)) := rfl
  have e1 : ((300 : ℚ) * 200 * 400 / 1000000) = 24 := by norm_num
  have e2 : ((300 : ℚ) * 200 * 400 / 1000000 * 0.85) = 20.4 := by norm_num
  rw [e1] at hg
  rw [e2] at hn
  refine ⟨hg, ?_, hn, ?_⟩
  · rw [hg]
    simp only [ne_eq, Option.some.injEq, PyVal.num.injEq]
    norm_num
  · rw [hn]
    simp only [ne_eq, Option.some.injEq, PyVal.num.injEq]
    norm_num

/-- C2 amended: on the end-to-end example input, lip_cm = 4, the export
holds exactly one data row, and that row carries aisles = 5,
qty_per_bay = 24, total_qty = 72, gross_cbm = 24 and net_cbm = 20.4 (not
0.024 and 0.0204: the code divides cubic millimetres by 1e6). -/
theorem C2_amended :
    lipDerivation true (.num 200) = 4 ∧
    (buildRows exampleLibrary [exampleGroup]).2 = [1] ∧
    (buildRows exampleLibrary [exampleGroup]).1 = [makeRow exampleGroupData smallToteBin] ∧
    dlookup? (makeRow exampleGroupData smallToteBin) "# of Aisles" = some (.num 5) ∧
    dlookup? (makeRow exampleGroupData smallToteBin) "Qty Per Bay" = some (.num 24) ∧
    dlookup? (makeRow exampleGroupData smallToteBin) "Total Quantity" = some (.num 72) ∧
    dlookup? (makeRow exampleGroupData smallToteBin) "Bin Gross CBM" = some (.num 24) ∧
    dlookup? (makeRow exampleGroupData smallToteBin) "Bin Net CBM" = some (.num 20.4) ∧
    dlookup? (makeRow exampleGroupData smallToteBin) "Lip (cm)" = some (.num 4) := by
  have hlip : lipDerivation true (.num 200) = 4 := by
    norm_num [lipDerivation, safe_float, pyFloat?]
  refine ⟨hlip, rfl, rfl, ?_, ?_, ?_, ?_, ?_, ?_⟩
  · calc dlookup? (makeRow exampleGroupData smallToteBin) "# of Aisles"
        = some (.num ((5 - 1 + 1 : ℤ) : ℚ)) := rfl
      _ = some (.num 5) := by norm_num
  · calc dlookup? (makeRow exampleGroupData smallToteBin) "Qty Per Bay"
        = some (.num ((4 * 6 : ℤ) : ℚ)) := rfl
      _ = some (.num 24) := by norm_num
  · calc dlookup? (makeRow exampleGroupData smallToteBin) "Total Quantity"
        = some (.num ((4 * 6 * 3 : ℤ) : ℚ)) := rfl
      _ = some (.num 72) := by norm_num
  · calc dlookup? (makeRow exampleGroupData smallToteBin) "Bin Gross CBM"
        = some (.num ((300 : ℚ) * 200 * 400 / 1000000)) := rfl
      _ = some (.num 24) := by norm_num
  · calc dlookup? (makeRow exampleGroupData smallToteBin) "Bin Net CBM"
        = some (.num ((300 : ℚ) * 200 * 400 / 1000000 * 0.85)) := rfl
      _ = some (.num 20.4) := by norm_num
  · calc dlookup? (makeRow exampleGroupData smallToteBin) "Lip (cm)"
        = some (if lipDerivation true (.num 200) = 0 then PyVal.str "-"
            else PyVal.num (lipDerivation true (.num 200))) := rfl
      _ = some (.num 4) := by rw [hlip]; norm_num

/-- C3 counterexample: the claimed equivalence lip_cm = 0 iff
has_lip = false fails on the code at has_lip = true with height 0: the
derived lip is 0 although the flag is true. -/
theorem C3_counterexample :
    ¬ (∀ (hl : Bool) (q : ℚ), lipDerivation hl (.num q) = 0 ↔ hl = false) := by
  intro hall
  have h0 : lipDerivation true (.num 0) = 0 := by
    norm_num [lipDerivation, safe_float, pyFloat?]
  exact absurd ((hall true 0).mp h0) (by simp)

/-- C3 amended: the derived lip is 0 when has_lip is false; when has_lip
is true it equals height * 0.02 exactly; hence lip is 0 iff has_lip is
false or the (safe_float of the) height is 0. -/
theorem C3_amended (v : PyVal) :
    lipDerivation false v = 0 ∧
    lipDerivation true v = safe_float v 0 * 0.02 ∧
    (∀ hl : Bool, (lipDerivation hl v = 0 ↔ (hl = false ∨ safe_float v 0 = 0))) := by
  refine ⟨rfl, ?_, ?_⟩
  · show safe_float v 0 * 0.2 / 10 = safe_float v 0 * 0.02
    have h : (0.2 : ℚ) / 10 = 0.02 := by norm_num
    calc safe_float v 0 * 0.2 / 10 = safe_float v 0 * ((0.2 : ℚ) / 10) := by ring
      _ = safe_float v 0 * 0.02 := by rw [h]
  · intro hl
    cases hl with
    | false => simp [lipDerivation]
    | true =>
      show safe_float v 0 * 0.2 / 10 = 0 ↔ _
      constructor
      · intro h
        rcases div_eq_zero_iff.mp h with h1 | h1
        · rcases mul_eq_zero.mp h1 with h2 | h2
          · exact Or.inr h2
          · exact absurd h2 (by norm_num)
        · exact absurd h1 (by norm_num)
      · intro h
        rcases h with h | h
        · exact absurd h (by simp)
        · rw [h]; ring

/-- C3 witness: the amended statement at height 200. -/
theorem C3_witness :
    lipDerivation false (.num 200) = 0 ∧ lipDerivation true (.num 200) = 4 := by
  obtain ⟨h1, h2, h3⟩ := C3_amended (.num 200)
  refine ⟨h1, ?_⟩
  rw [h2]
  norm_num [safe_float, pyFloat?]

/-- C4: for every library and group list, generate_excel emits rows in
group order then bin-id order, skipping ids absent from the library
without counting them, one row per surviving occurrence; the per-group
counts are the numbers of surviving references, and the total row count is
their sum (a group with zero surviving references contributes count 0 and
no rows, since its mapped block is empty). -/
theorem C4_buildRows (lib : Library) (groups : List Group) :
    (buildRows lib groups).2
      = groups.map (fun grp =>
          (grp.bin_keys.filter (fun k => (dlookup? lib k).isSome)).length) ∧
    (buildRows lib groups).1
      = (groups.map (fun grp =>
          (grp.bin_keys.filter (fun k => (dlookup? lib k).isSome)).map
            (fun k => makeRow grp.group_data (dget lib k [])))).flatten ∧
    (buildRows lib groups).1.length = ((buildRows lib groups).2).sum := by
  refine ⟨?_, ?_, buildRows_len lib groups⟩
  · simp [buildRows, groupRows_eq]
  · exact congrArg List.flatten (List.map_congr_left fun grp _ => groupRows_eq lib grp)

/-- C5 counterexample: the columns the merge loop touches are the first
nine export columns, which are not the nine group-identity columns the
claim lists: # of Aisles (a derived column, position 7) is merged and
Bay Design (position 10) is not. -/
theorem C5_counterexample :
    mergedColumnNames ≠ GROUP_COLS ∧
    "# of Aisles" ∈ mergedColumnNames ∧ "Bay Design" ∉ mergedColumnNames := by
  refine ⟨by decide, by decide, by decide⟩

/-- C5 amended: the merged (and centered, wrap-text) columns are exactly
spreadsheet columns 1 through 9, whose headers are Group Name, Floor, Mod,
Depth, Start Aisle, End Aisle, # of Aisles, # of Bays and
Total # of Shelves per Bay; Bay Design is not merged. -/
theorem C5_amended (counts : List Nat) :
    mergedColumnNames
      = ["Group Name", "Floor", "Mod", "Depth", "Start Aisle", "End Aisle", "# of Aisles",
         "# of Bays", "Total # of Shelves per Bay"] ∧
    (∀ r ∈ mergeRegions counts, 1 ≤ r.col ∧ r.col ≤ 9) :=
  ⟨by decide, fun r hr => mergeRegionsAux_col 2 counts r hr⟩

/-- C5 witness: the amended statement for a single group spanning two
rows. -/
theorem C5_witness :
    (({ startRow := 2, endRow := 3, col := 1 } : MergeRegion) ∈ mergeRegions [2]) ∧
    1 ≤ ({ startRow := 2, endRow := 3, col := 1 } : MergeRegion).col ∧
    ({ startRow := 2, endRow := 3, col := 1 } : MergeRegion).col ≤ 9 := by
  have hmem : ({ startRow := 2, endRow := 3, col := 1 } : MergeRegion) ∈ mergeRegions [2] := by
    decide
  obtain ⟨h1, h2⟩ := (C5_amended [2]).2 _ hmem
  exact ⟨hmem, h1, h2⟩

/-- C6: for every library and group list, sync_bin_keys_with_library
replaces each group bin-id list by the sublist of ids present in the
library, in their original relative order, and changes nothing else: the
group data dicts, the finalized flags, and the list order and length are
untouched, and no error is surfaced (the operation is total). -/
theorem C6_sync (lib : Library) (groups : List Group) :
    (sync_bin_keys_with_library lib groups).map Group.group_data
      = groups.map Group.group_data ∧
    (sync_bin_keys_with_library lib groups).map Group.finalized
      = groups.map Group.finalized ∧
    (sync_bin_keys_with_library lib groups).map Group.bin_keys
      = groups.map (fun grp => grp.bin_keys.filter (fun k => (dlookup? lib k).isSome)) := by
  refine ⟨?_, ?_, ?_⟩
  · simp [sync_bin_keys_with_library]
  · simp [sync_bin_keys_with_library]
  · simp only [sync_bin_keys_with_library, List.map_map]
    apply List.map_congr_left
    intro grp _
    show grp.bin_keys.filter (fun k => (lib.map (fun e => e.1)).contains k) = _
    apply List.filter_congr
    intro k _
    rw [keys_contains_iff]

/-- C7: copying the group at position i appends to the end of the list a
clone whose finalized flag is false, whose bin-id list equals the
original, whose Group Name is the original name suffixed with a space and
(Copy), or Untitled (Copy) when the name is falsy, and whose other
group-data entries are unchanged; and however the appended clone is later
mutated, position i still holds the original group (the copy is deep, so
the original is unaffected). -/
theorem C7_clone (groups : List Group) (i : Nat) (grp : Group)
    (h : groups.get? i = some grp) :
    copyGroupHandler groups i = groups ++ [cloneGroup grp] ∧
    (cloneGroup grp).finalized = false ∧
    (cloneGroup grp).bin_keys = grp.bin_keys ∧
    dlookup? (cloneGroup grp).group_data "Group Name"
      = some (if pyTruthy (dget grp.group_data "Group Name" PyVal.pynone)
          then PyVal.str (pyStr (dget grp.group_data "Group Name" PyVal.pynone) ++ " (Copy)")
          else PyVal.str "Untitled (Copy)") ∧
    (∀ k, k ≠ "Group Name" →
      dlookup? (cloneGroup grp).group_data k = dlookup? grp.group_data k) ∧
    (∀ f : Group → Group,
      ((groups ++ [cloneGroup grp]).set groups.length (f (cloneGroup grp))).get? i
        = some grp) := by
  have hi : i < groups.length := by
    by_contra hge
    rw [List.get?_eq_none.mpr (by omega)] at h
    exact Option.noConfusion h
  have h2 : groups[i]? = some grp := by rw [← List.get?_eq_getElem?]; exact h
  refine ⟨?_, rfl, rfl, ?_, ?_, ?_⟩
  · simp [copyGroupHandler, h2]
  · show dlookup? (dset grp.group_data "Group Name" _) "Group Name" = _
    rw [dlookup_dset_self]
  · intro k hk
    show dlookup? (dset grp.group_data "Group Name" _) k = _
    rw [dlookup_dset_ne _ _ _ _ hk]
  · intro f
    rw [List.get?_eq_getElem?]
    rw [List.getElem?_set_ne (by omega)]
    rw [List.getElem?_append_left hi]
    exact h2

/-- C7 witness: cloning a concrete singleton list. -/
theorem C7_witness :
    copyGroupHandler [cloneWitnessGroup] 0
      = [cloneWitnessGroup] ++ [cloneGroup cloneWitnessGroup] ∧
    (cloneGroup cloneWitnessGroup).finalized = false ∧
    (cloneGroup cloneWitnessGroup).bin_keys = cloneWitnessGroup.bin_keys :=
  ⟨(C7_clone [cloneWitnessGroup] 0 cloneWitnessGroup rfl).1,
   (C7_clone [cloneWitnessGroup] 0 cloneWitnessGroup rfl).2.1,
   (C7_clone [cloneWitnessGroup] 0 cloneWitnessGroup rfl).2.2.1⟩

/-- C8 amended: the builder runs exactly when both the group list and the
library are non-empty; with groups but an empty library a visible warning
is shown instead; with an empty group list the download section renders
nothing at all (the export is refused, but without any warning). -/
theorem C8_amended (groups : List Group) (lib : Library) :
    ((∃ report, exportSection groups lib = ExportUI.download report)
      ↔ (groups ≠ [] ∧ lib ≠ [])) ∧
    (groups ≠ [] → lib = [] → exportSection groups lib = ExportUI.warnEmptyLibrary) ∧
    (groups = [] → exportSection groups lib = ExportUI.hidden) ∧
    (groups ≠ [] → lib ≠ [] →
      exportSection groups lib = ExportUI.download (buildRows lib groups)) := by
  rcases groups with _ | ⟨g, gs⟩ <;> rcases lib with _ | ⟨e, es⟩ <;>
    simp [exportSection]

/-- C8 counterexample: with an empty group list and a non-empty library
the download section renders nothing; no warning is shown, contradicting
the claim that both empty cases surface a visible warning. -/
theorem C8_counterexample :
    exportSection [] [("bin_1", [])] = ExportUI.hidden ∧
    ExportUI.hidden ≠ ExportUI.warnEmptyLibrary :=
  ⟨rfl, by simp⟩

/-- C8 witness: the amended statement at a concrete non-empty group list
and empty library. -/
theorem C8_witness :
    exportSection [cloneWitnessGroup] [] = ExportUI.warnEmptyLibrary :=
  (C8_amended [cloneWitnessGroup] []).2.1 (by simp) rfl

/-- C9: safe_float is total (the embedding returns a value for every
input); it returns float(x) whenever x is convertible and the fallback
default otherwise, so malformed input is replaced silently rather than
surfaced. -/
theorem C9_safe_float (x : PyVal) (d : ℚ) :
    (∀ q, pyFloat? x = some q → safe_float x d = q) ∧
    (pyFloat? x = Option.none → safe_float x d = d) := by
  constructor
  · intro q hq
    simp [safe_float, hq]
  · intro hq
    simp [safe_float, hq]

/-- C9 witness: a non-convertible string falls back to the default and a
number converts to itself. -/
theorem C9_witness :
    (pyFloat? (.str "abc") = Option.none ∧ safe_float (.str "abc") 5 = 5) ∧
    (pyFloat? (.num 3) = some 3 ∧ safe_float (.num 3) 5 = 3) :=
  ⟨⟨by decide, (C9_safe_float (.str "abc") 5).2 (by decide)⟩,
   ⟨rfl, (C9_safe_float (.num 3) 5).1 3 rfl⟩⟩

/-- C10: calculate_fields is total over arbitrary dict inputs (its
embedding is a pure function, so it raises nothing and mutates nothing):
every count-like read defaults to 1 when the key is missing or its value
is not convertible, every dimension-like read defaults to 0, and all the
derived keys are present in the output for every pair of inputs. -/
theorem C10_derive_totality (g b : Dict) :
    (∀ k, dlookup? b k = Option.none → readCount b k = 1) ∧
    (∀ k v, dlookup? b k = some v → pyFloat? v = Option.none → readCount b k = 1) ∧
    (∀ k, dlookup? b k = Option.none → readDim b k = 0) ∧
    (∀ k v, dlookup? b k = some v → pyFloat? v = Option.none → readDim b k = 0) ∧
    (dlookup? (calculate_fields g b) "# of Aisles").isSome = true ∧
    (dlookup? (calculate_fields g b) "Qty Per Bay").isSome = true ∧
    (dlookup? (calculate_fields g b) "Total Quantity").isSome = true ∧
    (dlookup? (calculate_fields g b) "Bin Gross CBM").isSome = true ∧
    (dlookup? (calculate_fields g b) "Bin Net CBM").isSome = true ∧
    (dlookup? (calculate_fields g b) "Lip (cm)").isSome = true := by
  refine ⟨?_, ?_, ?_, ?_, ?_, ?_, ?_, ?_, ?_, ?_⟩
  · intro k hk
    show pyInt (safe_float (dget b k (PyVal.num 1)) 1) = 1
    rw [dget, hk]
    rfl
  · intro k v hk hv
    show pyInt (safe_float (dget b k (PyVal.num 1)) 1) = 1
    rw [dget, hk]
    show pyInt (safe_float v 1) = 1
    rw [safe_float, hv]
    rfl
  · intro k hk
    show safe_float (dget b k (PyVal.num 0)) 0 = 0
    rw [dget, hk]
    rfl
  · intro k v hk hv
    show safe_float (dget b k (PyVal.num 0)) 0 = 0
    rw [dget, hk]
    show safe_float v 0 = 0
    rw [safe_float, hv]
  · rw [calc_lookup_aisles]; rfl
  · rw [calc_lookup_qty]; rfl
  · rw [calc_lookup_total]; rfl
  · rw [calc_lookup_gross]; rfl
  · rw [calc_lookup_net]; rfl
  · rw [calc_lookup_lip]; rfl

/-- C10 witness: a dict with one non-numeric entry defaults a missing
count-like key to 1 and the non-convertible UT to 0. -/
theorem C10_witness :
    (dlookup? ([("UT", PyVal.str "x")] : Dict) "Qty bins per Shelf" = Option.none ∧
      readCount [("UT", PyVal.str "x")] "Qty bins per Shelf" = 1) ∧
    (dlookup? ([("UT", PyVal.str "x")] : Dict) "UT" = some (PyVal.str "x") ∧
      readDim [("UT", PyVal.str "x")] "UT" = 0) :=
  ⟨⟨rfl, (C10_derive_totality [] [("UT", PyVal.str "x")]).1 "Qty bins per Shelf" rfl⟩,
   ⟨rfl, (C10_derive_totality [] [("UT", PyVal.str "x")]).2.2.2.1 "UT" (PyVal.str "x") rfl
      (by decide)⟩⟩

end BinSpecs
